import Mathlib

/-!
Verification of the FCC pipe-delimited radio-station parser
(`src/fcc_parser.py`).  The definitions below are a shallow embedding of the
parser: Python floats are modelled as rationals, raised exceptions as `none`
results, and the pydantic `RadioStation` model as a smart constructor that
returns `none` whenever any declared constraint or field validator would
raise a `ValidationError`.
-/

set_option maxRecDepth 200000

namespace FCC

/-- Strip leading and trailing whitespace from a character list. -/
def stripChars (cs : List Char) : List Char :=
  ((cs.dropWhile Char.isWhitespace).reverse.dropWhile Char.isWhitespace).reverse

/-- Models Python `s.strip()` (no argument): remove leading and trailing
whitespace. -/
def pystrip (s : String) : String :=
  ⟨stripChars s.data⟩

/-- Split a character list on a separator character; like Python `str.split(sep)`,
the empty list yields one empty group and adjacent separators yield empty
groups. -/
def splitSepChars (sep : Char) : List Char → List (List Char)
  | [] => [[]]
  | c :: cs =>
    let r := splitSepChars sep cs
    if c = sep then [] :: r
    else
      match r with
      | [] => [[c]]
      | g :: gs => (c :: g) :: gs

/-- Models Python `line.split('|')`. -/
def splitPipe (s : String) : List String :=
  (splitSepChars '|' s.data).map (fun cs => ⟨cs⟩)

/-- Numeric value of a list of decimal digit characters (most significant first). -/
def natOfDigits (ds : List Char) : Nat :=
  ds.foldl (fun n c => 10 * n + (c.toNat - 48)) 0

/-- Rational value of an integer part and a fractional part given as digit lists. -/
def decimalOfParts (ip fs : List Char) : ℚ :=
  (natOfDigits ip : ℚ) + (natOfDigits fs : ℚ) / (10 : ℚ) ^ fs.length

/-- Leftmost match of the regular expression `\d+(\.\d+)?` in a character list,
as a rational.  Models `re.search(r'(\d+(?:\.\d+)?)', s)` followed by
`float(match.group(1))` in `_parse_frequency` / `_parse_power`: the match
starts at the first digit, the digit runs are maximal (greedy), and the
fractional part is taken only when a dot followed by a digit comes right
after the integer digits. -/
def extractNumAux : List Char → Option ℚ
  | [] => none
  | c :: cs =>
    if c.isDigit then
      let ip := (c :: cs).takeWhile Char.isDigit
      let rest := (c :: cs).dropWhile Char.isDigit
      match rest with
      | '.' :: r2 =>
        let fs := r2.takeWhile Char.isDigit
        if fs.isEmpty then some (natOfDigits ip : ℚ) else some (decimalOfParts ip fs)
      | _ => some (natOfDigits ip : ℚ)
    else extractNumAux cs

/-- First integer-or-decimal numeric token of a string, as a rational. -/
def extract_number (s : String) : Option ℚ :=
  extractNumAux s.data

/-- Substring containment on character lists (models Python `needle in hay`). -/
def containsSubChars (needle : List Char) : List Char → Bool
  | [] => needle.isEmpty
  | c :: cs => needle.isPrefixOf (c :: cs) || containsSubChars needle cs

/-- Models the Python test `'kHz' in freq_str` (case-sensitive substring). -/
def hasKHz (s : String) : Bool :=
  containsSubChars "kHz".data s.data

/-- Unit normalization of `_parse_frequency` (lines 257-259): a value whose
source text carries the `kHz` marker, or whose numeric value is below 30, is
taken to be kilohertz and divided by 1000; otherwise it is already MHz. -/
def normalize_freq (s : String) (t : ℚ) : ℚ :=
  if hasKHz s = true ∨ t < 30 then t / 1000 else t

/-- Models `_parse_frequency`: `None` for an empty field or a field without a
numeric token, otherwise the first numeric token after unit normalization. -/
def parse_frequency (freq_str : String) : Option ℚ :=
  if freq_str = "" then none
  else
    match extract_number freq_str with
    | none => none
    | some freq => some (normalize_freq freq_str freq)

/-- Models `_parse_power`: `None` for an empty field, the `-` placeholder, or a
field without a numeric token; otherwise the first numeric token times 1000
(kilowatts to watts). -/
def parse_power (power_str : String) : Option ℚ :=
  if power_str = "" ∨ power_str = "-" then none
  else
    match extract_number power_str with
    | none => none
    | some p => some (p * 1000)

/-- The `FM_FIELDS` dictionary of `FCCDataFetcher` (field name to column index). -/
def FM_FIELDS : List (String × Nat) :=
  [("call_sign", 1), ("frequency", 2), ("service_type", 3), ("status", 9),
   ("city", 10), ("state", 11), ("country", 12), ("facility_id", 13),
   ("power", 14), ("lat_direction", 19), ("lat_degrees", 20),
   ("lat_minutes", 21), ("lat_seconds", 22), ("lon_direction", 23),
   ("lon_degrees", 24), ("lon_minutes", 25), ("lon_seconds", 26)]

/-- The `AM_FIELDS` dictionary of `FCCDataFetcher` (identical to `FM_FIELDS` in
the source). -/
def AM_FIELDS : List (String × Nat) :=
  [("call_sign", 1), ("frequency", 2), ("service_type", 3), ("status", 9),
   ("city", 10), ("state", 11), ("country", 12), ("facility_id", 13),
   ("power", 14), ("lat_direction", 19), ("lat_degrees", 20),
   ("lat_minutes", 21), ("lat_seconds", 22), ("lon_direction", 23),
   ("lon_degrees", 24), ("lon_minutes", 25), ("lon_seconds", 26)]

/-- Dictionary lookup, models `field_map.get(field_name)`. -/
def dictGet (d : List (String × Nat)) (k : String) : Option Nat :=
  (d.find? (fun p => p.1 == k)).map (fun p => p.2)

/-- Models `max(field_map.values())` (the dictionaries are non-empty, so the
fold base 0 never shows through). -/
def maxValues (d : List (String × Nat)) : Nat :=
  (d.map (fun p => p.2)).foldl Nat.max 0

/-- Models `_get_field`: empty string when the name is unmapped or the index is
out of bounds, otherwise the stripped field text. -/
def get_field (fields : List String) (field_map : List (String × Nat)) (name : String) : String :=
  match dictGet field_map name with
  | none => ""
  | some i => if fields.length ≤ i then "" else pystrip (fields.getD i "")

/-- Models Python `int(s)` on an already-stripped string: an optional sign
followed by one or more decimal digits; any other shape raises `ValueError`,
modelled as `none`.  (Exotic accepted forms such as digit-group underscores or
non-ASCII digits are not modelled; the upstream feed is plain ASCII.) -/
def pyInt (s : String) : Option Int :=
  match s.data with
  | [] => none
  | '-' :: ds =>
      if ds ≠ [] ∧ ds.all Char.isDigit then some (-(natOfDigits ds : Int)) else none
  | '+' :: ds =>
      if ds ≠ [] ∧ ds.all Char.isDigit then some (natOfDigits ds : Int) else none
  | ds => if ds.all Char.isDigit then some (natOfDigits ds : Int) else none

/-- Decimal literal of the shape `\d*(\.\d*)?` with at least one digit, as a
rational. -/
def parseDecimalChars (cs : List Char) : Option ℚ :=
  let ip := cs.takeWhile Char.isDigit
  let rest := cs.dropWhile Char.isDigit
  match rest with
  | [] => if ip.isEmpty then none else some (natOfDigits ip : ℚ)
  | '.' :: fs =>
      if fs.all Char.isDigit ∧ ¬(ip.isEmpty ∧ fs.isEmpty) then some (decimalOfParts ip fs)
      else none
  | _ => none

/-- Models Python `float(s)` on an already-stripped string, restricted to plain
signed decimal literals; other shapes (exponents, `inf`, `nan`) raise
`ValueError`, modelled as `none`.  The upstream seconds fields are plain
decimals, for which this is exact. -/
def pyFloat (s : String) : Option ℚ :=
  match s.data with
  | '-' :: cs => (parseDecimalChars cs).map (fun q => -q)
  | '+' :: cs => parseDecimalChars cs
  | cs => parseDecimalChars cs

/-- Models `int(sub) if sub else 0` inside `_parse_coordinates`: the empty
subfield defaults to zero, a non-empty subfield must parse as an int
(`ValueError` otherwise, modelled as `none`). -/
def subfield_int (s : String) : Option ℚ :=
  if s = "" then some 0 else (pyInt s).map (fun z => (z : ℚ))

/-- Models `float(sub) if sub else 0` inside `_parse_coordinates`. -/
def subfield_float (s : String) : Option ℚ :=
  if s = "" then some 0 else pyFloat s

/-- The candidate decimal-degree pair of `_parse_coordinates` before the
plausibility filter: `none` when any non-empty subfield fails to parse (the
Python `ValueError` path). -/
def coord_candidates (fields : List String) (field_map : List (String × Nat)) :
    Option (ℚ × ℚ) :=
  match subfield_int (get_field fields field_map "lat_degrees"),
        subfield_int (get_field fields field_map "lat_minutes"),
        subfield_float (get_field fields field_map "lat_seconds"),
        subfield_int (get_field fields field_map "lon_degrees"),
        subfield_int (get_field fields field_map "lon_minutes"),
        subfield_float (get_field fields field_map "lon_seconds") with
  | some latd, some latm, some lats, some lond, some lonm, some lons =>
      some (latd + latm / 60 + lats / 3600, -(lond + lonm / 60 + lons / 3600))
  | _, _, _, _, _, _ => none

/-- Models `_parse_coordinates`: the candidate pair when it passes the
US-territory plausibility filter, `(none, none)` when it fails the filter or
when any subfield raised. -/
def parse_coordinates (fields : List String) (field_map : List (String × Nat)) :
    Option ℚ × Option ℚ :=
  match coord_candidates fields field_map with
  | none => (none, none)
  | some (lat, lon) =>
      if lat < 18 ∨ 72 < lat ∨ lon < -180 ∨ -60 < lon then (none, none)
      else (some lat, some lon)

/-- One step of the `_find_licensee_field` loop over a list of slot indices:
return the first slot whose stripped content is non-empty and longer than 10
characters. -/
def scan_slots (fields : List String) : List Nat → String
  | [] => ""
  | i :: rest =>
      if pystrip (fields.getD i "") ≠ "" ∧ 10 < (pystrip (fields.getD i "")).length
      then pystrip (fields.getD i "") else scan_slots fields rest

/-- Models `_find_licensee_field`: scan `range(25, min(len(fields), 35))`. -/
def find_licensee_field (fields : List String) : String :=
  scan_slots fields (List.range' 25 (min fields.length 35 - 25))

/-- The validated output entity, mirroring the pydantic `RadioStation` model. -/
structure RadioStation where
  call_sign : String
  frequency : ℚ
  service_type : String
  city : String
  state : String
  latitude : Option ℚ
  longitude : Option ℚ
  power_watts : Option ℚ
  licensee : Option String
  facility_id : Option String
  status : Option String
deriving DecidableEq, Repr

/-- Bounds check for an optional value, `true` when absent. -/
def optInRange (v : Option ℚ) (lo hi : ℚ) : Bool :=
  match v with
  | none => true
  | some x => decide (lo ≤ x ∧ x ≤ hi)

/-- Nonnegativity check for an optional value, `true` when absent. -/
def optNonneg (v : Option ℚ) : Bool :=
  match v with
  | none => true
  | some x => decide (0 ≤ x)

/-- Models construction of the pydantic `RadioStation`: global whitespace
stripping (`str_strip_whitespace = True`), the declared `Field` constraints
(`frequency > 0`, `service_type` matching `^(FM|AM)$`, `state` of length at
most 2, optional latitude in [-90, 90], longitude in [-180, 180], power ≥ 0)
and the two custom field validators (frequency in [0.53, 107.9], non-empty
call sign).  Any violation raises a `ValidationError`, modelled as `none`. -/
def mkRadioStation (call_sign : String) (frequency : ℚ) (service_type city state : String)
    (latitude longitude power_watts : Option ℚ)
    (licensee facility_id status : Option String) : Option RadioStation :=
  if (pystrip call_sign) ≠ "" ∧ 0 < frequency ∧ 53/100 ≤ frequency ∧ frequency ≤ 1079/10
      ∧ ((pystrip service_type) = "FM" ∨ (pystrip service_type) = "AM")
      ∧ (pystrip state).length ≤ 2
      ∧ optInRange latitude (-90) 90 = true
      ∧ optInRange longitude (-180) 180 = true
      ∧ optNonneg power_watts = true then
    some { call_sign := pystrip call_sign, frequency := frequency,
           service_type := pystrip service_type, city := pystrip city, state := pystrip state,
           latitude := latitude, longitude := longitude, power_watts := power_watts,
           licensee := licensee.map pystrip,
           facility_id := facility_id.map pystrip,
           status := status.map pystrip }
  else none

/-- Models `_parse_fm_line` on the already-split field list: the length
precheck, the required call sign and frequency (with the Python falsiness test
`if not frequency` also rejecting a zero frequency), then assembly through the
validated constructor.  `ValidationError` raised by the constructor escapes
`_parse_fm_line` in the source but is caught by the driver loop, so the
observable per-line outcome is `none` either way. -/
def parse_fm_fields (fields : List String) : Option RadioStation :=
  if fields.length < maxValues FM_FIELDS then none
  else if get_field fields FM_FIELDS "call_sign" = "" then none
  else
    match parse_frequency (get_field fields FM_FIELDS "frequency") with
    | none => none
    | some frequency =>
      if frequency = 0 then none
      else
        mkRadioStation (get_field fields FM_FIELDS "call_sign") frequency "FM"
          (get_field fields FM_FIELDS "city") (get_field fields FM_FIELDS "state")
          (parse_coordinates fields FM_FIELDS).1 (parse_coordinates fields FM_FIELDS).2
          (parse_power (get_field fields FM_FIELDS "power"))
          (some (find_licensee_field fields))
          (some (get_field fields FM_FIELDS "facility_id"))
          (some (get_field fields FM_FIELDS "status"))

/-- Models `_parse_fm_line` on a raw line: split on the pipe character. -/
def parse_fm_line (line : String) : Option RadioStation :=
  parse_fm_fields (splitPipe line)

/-- Models `_parse_am_line` on the already-split field list (same structure as
the FM variant, with the AM mapping and service type). -/
def parse_am_fields (fields : List String) : Option RadioStation :=
  if fields.length < maxValues AM_FIELDS then none
  else if get_field fields AM_FIELDS "call_sign" = "" then none
  else
    match parse_frequency (get_field fields AM_FIELDS "frequency") with
    | none => none
    | some frequency =>
      if frequency = 0 then none
      else
        mkRadioStation (get_field fields AM_FIELDS "call_sign") frequency "AM"
          (get_field fields AM_FIELDS "city") (get_field fields AM_FIELDS "state")
          (parse_coordinates fields AM_FIELDS).1 (parse_coordinates fields AM_FIELDS).2
          (parse_power (get_field fields AM_FIELDS "power"))
          (some (find_licensee_field fields))
          (some (get_field fields AM_FIELDS "facility_id"))
          (some (get_field fields AM_FIELDS "status"))

/-- Models `_parse_am_line` on a raw line. -/
def parse_am_line (line : String) : Option RadioStation :=
  parse_am_fields (splitPipe line)

/-- Models the driver loop of `fetch_fm_stations` over the split response
lines (the HTTP fetch and `response.text.strip().split('\n')` precede this and
are outside the parsing core): each line is parsed independently, any per-line
failure or exception is swallowed, successes are appended in order. -/
def fetch_fm_stations (lines : List String) : List RadioStation :=
  lines.filterMap parse_fm_line

/-- Models the driver loop of `fetch_am_stations`. -/
def fetch_am_stations (lines : List String) : List RadioStation :=
  lines.filterMap parse_am_line

/-- The implicit per-batch failure count of the FM driver: lines that produced
no record (total lines minus the reported success count). -/
def fm_failure_count (lines : List String) : Nat :=
  (lines.filter (fun l => (parse_fm_line l).isNone)).length

/-- The implicit per-batch failure count of the AM driver. -/
def am_failure_count (lines : List String) : Nat :=
  (lines.filter (fun l => (parse_am_line l).isNone)).length

/-- Modelled from the words of claim C2 (not from the source): a coordinate
subfield that is absent OR unparsable defaults to zero (integer subfields). -/
def claim_sub_int (s : String) : ℚ :=
  match pyInt s with
  | some z => (z : ℚ)
  | none => 0

/-- Modelled from the words of claim C2 (not from the source): a coordinate
subfield that is absent OR unparsable defaults to zero (the seconds
subfields, read as floats). -/
def claim_sub_float (s : String) : ℚ :=
  match pyFloat s with
  | some q => q
  | none => 0

/-- Modelled from the words of claim C2 (not from the source): the candidate
coordinate pair computed with every absent-or-unparsable subfield defaulted to
zero, the longitude always negated as West. -/
def claim_candidates (fields : List String) (field_map : List (String × Nat)) : ℚ × ℚ :=
  (claim_sub_int (get_field fields field_map "lat_degrees")
     + claim_sub_int (get_field fields field_map "lat_minutes") / 60
     + claim_sub_float (get_field fields field_map "lat_seconds") / 3600,
   -(claim_sub_int (get_field fields field_map "lon_degrees")
       + claim_sub_int (get_field fields field_map "lon_minutes") / 60
       + claim_sub_float (get_field fields field_map "lon_seconds") / 3600))

/-- A well-formed FM test line, as its split field list (28 slots, indices 0-27;
the licensee sits in slot 27, past the mapped columns). -/
def fields0 : List String :=
  ["", "KQED", "88.5  MHz", "FM", "", "", "", "", "", "LIC", "SAN FRANCISCO", "CA",
   "USA", "12345", "0.5   kW", "", "", "", "", "N", "40", "30", "0", "W", "74",
   "0", "0", "EXAMPLE BROADCASTING CORP"]

/-- The raw form of `fields0` as one pipe-delimited line. -/
def line0 : String := String.intercalate "|" fields0

/-- The station record that parsing `line0` produces. -/
def rec0 : RadioStation :=
  { call_sign := "KQED", frequency := 177/2, service_type := "FM",
    city := "SAN FRANCISCO", state := "CA", latitude := some (81/2),
    longitude := some (-74), power_watts := some 500,
    licensee := some "EXAMPLE BROADCASTING CORP", facility_id := some "12345",
    status := some "LIC" }

/-- Like `fields0` but with a latitude-degrees text of 10: the candidate
latitude 10 is below the plausibility bound 18. -/
def c3fields : List String :=
  ["", "KQED", "88.5  MHz", "FM", "", "", "", "", "", "LIC", "SAN FRANCISCO", "CA",
   "USA", "12345", "0.5   kW", "", "", "", "", "N", "10", "0", "0", "W", "74",
   "0", "0", "EXAMPLE BROADCASTING CORP"]

/-- The raw form of `c3fields`. -/
def c3line : String := String.intercalate "|" c3fields

/-- Like `fields0` but with the placeholder `-` in the power column. -/
def c5fields : List String :=
  ["", "KQED", "88.5  MHz", "FM", "", "", "", "", "", "LIC", "SAN FRANCISCO", "CA",
   "USA", "12345", "-", "", "", "", "", "N", "40", "30", "0", "W", "74",
   "0", "0", "EXAMPLE BROADCASTING CORP"]

/-- The raw form of `c5fields`. -/
def c5line : String := String.intercalate "|" c5fields

/-- Like `fields0` but with the vacant-allocation placeholder `-` as call sign. -/
def c8fields : List String :=
  ["", "-", "88.5  MHz", "FM", "", "", "", "", "", "LIC", "SAN FRANCISCO", "CA",
   "USA", "12345", "0.5   kW", "", "", "", "", "N", "40", "30", "0", "W", "74",
   "0", "0", "EXAMPLE BROADCASTING CORP"]

/-- The raw form of `c8fields`. -/
def c8line : String := String.intercalate "|" c8fields

/-- Like `fields0` but with a whitespace-only call-sign column. -/
def c8badfields : List String :=
  ["", "   ", "88.5  MHz", "FM", "", "", "", "", "", "LIC", "SAN FRANCISCO", "CA",
   "USA", "12345", "0.5   kW", "", "", "", "", "N", "40", "30", "0", "W", "74",
   "0", "0", "EXAMPLE BROADCASTING CORP"]

/-- The raw form of `c8badfields`. -/
def c8badline : String := String.intercalate "|" c8badfields

/-- Like `fields0` but with a three-character state column. -/
def c9fields : List String :=
  ["", "KQED", "88.5  MHz", "FM", "", "", "", "", "", "LIC", "SAN FRANCISCO", "CAL",
   "USA", "12345", "0.5   kW", "", "", "", "", "N", "40", "30", "0", "W", "74",
   "0", "0", "EXAMPLE BROADCASTING CORP"]

/-- The raw form of `c9fields`. -/
def c9line : String := String.intercalate "|" c9fields

/-- Like `fields0` but with a non-numeric latitude-minutes subfield. -/
def c2fields : List String :=
  ["", "KQED", "88.5  MHz", "FM", "", "", "", "", "", "LIC", "SAN FRANCISCO", "CA",
   "USA", "12345", "0.5   kW", "", "", "", "", "N", "40", "x", "0", "W", "74",
   "0", "0", "EXAMPLE BROADCASTING CORP"]

/-- The raw form of `c2fields`. -/
def c2line : String := String.intercalate "|" c2fields

/-- Like `fields0` but with no slot in the licensee scan window longer than 10
characters. -/
def c10fields : List String :=
  ["", "KQED", "88.5  MHz", "FM", "", "", "", "", "", "LIC", "SAN FRANCISCO", "CA",
   "USA", "12345", "0.5   kW", "", "", "", "", "N", "40", "30", "0", "W", "74",
   "0", "0", "SHORT"]

/-- The raw form of `c10fields`. -/
def c10line : String := String.intercalate "|" c10fields

/-- The station record that parsing `c10line` produces (empty licensee). -/
def c10rec : RadioStation :=
  { call_sign := "KQED", frequency := 177/2, service_type := "FM",
    city := "SAN FRANCISCO", state := "CA", latitude := some (81/2),
    longitude := some (-74), power_watts := some 500,
    licensee := some "", facility_id := some "12345",
    status := some "LIC" }

/-- Like `fields0` but with a frequency column carrying no numeric token. -/
def noTokenFields : List String :=
  ["", "KQED", "MHz", "FM", "", "", "", "", "", "LIC", "SAN FRANCISCO", "CA",
   "USA", "12345", "0.5   kW", "", "", "", "", "N", "40", "30", "0", "W", "74",
   "0", "0", "EXAMPLE BROADCASTING CORP"]

/-- The raw form of `noTokenFields`. -/
def noTokenLine : String := String.intercalate "|" noTokenFields

/-- Like `fields0` but with a frequency of 200 MHz, outside [0.53, 107.9]. -/
def bigFreqFields : List String :=
  ["", "KQED", "200  MHz", "FM", "", "", "", "", "", "LIC", "SAN FRANCISCO", "CA",
   "USA", "12345", "0.5   kW", "", "", "", "", "N", "40", "30", "0", "W", "74",
   "0", "0", "EXAMPLE BROADCASTING CORP"]

/-- The raw form of `bigFreqFields`. -/
def bigFreqLine : String := String.intercalate "|" bigFreqFields

/-! ## Helper lemmas -/

lemma parse_frequency_eq (s : String) :
    parse_frequency s = (extract_number s).map (fun t => normalize_freq s t) := by
  unfold parse_frequency
  by_cases h : s = ""
  · subst h
    rfl
  · rw [if_neg h]
    cases hx : extract_number s <;> rfl

lemma mkRadioStation_some {cs : String} {f : ℚ} {st ci sta : String}
    {la lo pw : Option ℚ} {li fid stt : Option String} {r : RadioStation}
    (h : mkRadioStation cs f st ci sta la lo pw li fid stt = some r) :
    r.call_sign = pystrip cs ∧ r.frequency = f ∧ r.service_type = pystrip st ∧
    r.city = pystrip ci ∧ r.state = pystrip sta ∧ r.latitude = la ∧
    r.longitude = lo ∧ r.power_watts = pw ∧ r.licensee = li.map pystrip ∧
    r.facility_id = fid.map pystrip ∧ r.status = stt.map pystrip ∧
    53/100 ≤ f ∧ f ≤ 1079/10 ∧ (pystrip sta).length ≤ 2 := by
  unfold mkRadioStation at h
  split at h
  · rename_i hc
    injection h with h
    subst h
    exact ⟨rfl, rfl, rfl, rfl, rfl, rfl, rfl, rfl, rfl, rfl, rfl,
      hc.2.2.1, hc.2.2.2.1, hc.2.2.2.2.2.1⟩
  · cases h

lemma parse_fm_fields_some {fields : List String} {r : RadioStation}
    (h : parse_fm_fields fields = some r) :
    ∃ v : ℚ, parse_frequency (get_field fields FM_FIELDS "frequency") = some v ∧ v ≠ 0 ∧
      mkRadioStation (get_field fields FM_FIELDS "call_sign") v "FM"
        (get_field fields FM_FIELDS "city") (get_field fields FM_FIELDS "state")
        (parse_coordinates fields FM_FIELDS).1 (parse_coordinates fields FM_FIELDS).2
        (parse_power (get_field fields FM_FIELDS "power"))
        (some (find_licensee_field fields))
        (some (get_field fields FM_FIELDS "facility_id"))
        (some (get_field fields FM_FIELDS "status")) = some r := by
  unfold parse_fm_fields at h
  split at h
  · cases h
  · split at h
    · cases h
    · split at h
      · cases h
      · rename_i v hv
        split at h
        · cases h
        · rename_i hvz
          exact ⟨v, hv, hvz, h⟩

lemma parse_am_fields_some {fields : List String} {r : RadioStation}
    (h : parse_am_fields fields = some r) :
    ∃ v : ℚ, parse_frequency (get_field fields AM_FIELDS "frequency") = some v ∧ v ≠ 0 ∧
      mkRadioStation (get_field fields AM_FIELDS "call_sign") v "AM"
        (get_field fields AM_FIELDS "city") (get_field fields AM_FIELDS "state")
        (parse_coordinates fields AM_FIELDS).1 (parse_coordinates fields AM_FIELDS).2
        (parse_power (get_field fields AM_FIELDS "power"))
        (some (find_licensee_field fields))
        (some (get_field fields AM_FIELDS "facility_id"))
        (some (get_field fields AM_FIELDS "status")) = some r := by
  unfold parse_am_fields at h
  split at h
  · cases h
  · split at h
    · cases h
    · split at h
      · cases h
      · rename_i v hv
        split at h
        · cases h
        · rename_i hvz
          exact ⟨v, hv, hvz, h⟩

lemma parse_fm_fields_none_of_short {fields : List String}
    (h : fields.length < maxValues FM_FIELDS) : parse_fm_fields fields = none := by
  unfold parse_fm_fields
  rw [if_pos h]

lemma parse_am_fields_none_of_short {fields : List String}
    (h : fields.length < maxValues AM_FIELDS) : parse_am_fields fields = none := by
  unfold parse_am_fields
  rw [if_pos h]

lemma parse_fm_fields_none_of_call {fields : List String}
    (h : get_field fields FM_FIELDS "call_sign" = "") : parse_fm_fields fields = none := by
  unfold parse_fm_fields
  by_cases hs : fields.length < maxValues FM_FIELDS
  · rw [if_pos hs]
  · rw [if_neg hs, if_pos h]

lemma parse_am_fields_none_of_call {fields : List String}
    (h : get_field fields AM_FIELDS "call_sign" = "") : parse_am_fields fields = none := by
  unfold parse_am_fields
  by_cases hs : fields.length < maxValues AM_FIELDS
  · rw [if_pos hs]
  · rw [if_neg hs, if_pos h]

lemma filterMap_length_add_none_count (p : String → Option RadioStation)
    (lines : List String) :
    (lines.filterMap p).length + (lines.filter (fun l => (p l).isNone)).length
      = lines.length := by
  induction lines with
  | nil => rfl
  | cons l t ih =>
    cases h : p l with
    | none =>
      simp [List.filterMap_cons, h, List.filter_cons]
      omega
    | some r =>
      simp [List.filterMap_cons, h, List.filter_cons]
      omega

lemma filterMap_map_some_sublist (p : String → Option RadioStation)
    (lines : List String) :
    ((lines.filterMap p).map some).Sublist (lines.map p) := by
  induction lines with
  | nil => simp
  | cons l t ih =>
    cases h : p l with
    | none =>
      simp only [List.filterMap_cons, h, List.map_cons]
      exact ih.cons _
    | some r =>
      simp only [List.filterMap_cons, h, List.map_cons]
      exact ih.cons₂ _

/-! ## Claim C4: batch driver independence, order, and counting -/

/-- Claim C4: over any batch of lines, the FM and AM drivers return exactly
one record per non-failing line (success count plus failure count equals the
line count), process lines independently (the result of a batch is the
concatenation of the results of its parts, so a failure on one line cannot
affect any later line), and preserve source order (the successes, in order,
are a sublist of the per-line outcomes in line order).  Per-line failures are
modelled as `none` outcomes: the driver catches every per-line exception, so
nothing raises out of it. -/
theorem C4_thm :
    (∀ lines : List String,
        (fetch_fm_stations lines).length + fm_failure_count lines = lines.length) ∧
    (∀ l1 l2 : List String,
        fetch_fm_stations (l1 ++ l2) = fetch_fm_stations l1 ++ fetch_fm_stations l2) ∧
    (∀ lines : List String,
        ((fetch_fm_stations lines).map some).Sublist (lines.map parse_fm_line)) ∧
    (∀ lines : List String,
        (fetch_am_stations lines).length + am_failure_count lines = lines.length) ∧
    (∀ l1 l2 : List String,
        fetch_am_stations (l1 ++ l2) = fetch_am_stations l1 ++ fetch_am_stations l2) ∧
    (∀ lines : List String,
        ((fetch_am_stations lines).map some).Sublist (lines.map parse_am_line)) := by
  refine ⟨fun lines => ?_, fun l1 l2 => ?_, fun lines => ?_,
         fun lines => ?_, fun l1 l2 => ?_, fun lines => ?_⟩
  · exact filterMap_length_add_none_count parse_fm_line lines
  · exact List.filterMap_append l1 l2 parse_fm_line
  · exact filterMap_map_some_sublist parse_fm_line lines
  · exact filterMap_length_add_none_count parse_am_line lines
  · exact List.filterMap_append l1 l2 parse_am_line
  · exact filterMap_map_some_sublist parse_am_line lines

/-! ## Claim C6: short-line rejection -/

/-- Claim C6: the maximum column index referenced by either variant mapping is
26, and any line whose pipe-split field count is below it yields no record and
counts as one failure in the batch (totality of the model captures that no
exception escapes to the driver). -/
theorem C6_thm :
    maxValues FM_FIELDS = 26 ∧ maxValues AM_FIELDS = 26 ∧
    (∀ line : String, (splitPipe line).length < maxValues FM_FIELDS →
        parse_fm_line line = none) ∧
    (∀ line : String, (splitPipe line).length < maxValues AM_FIELDS →
        parse_am_line line = none) ∧
    (∀ line : String, (splitPipe line).length < 26 →
        fm_failure_count [line] = 1 ∧ am_failure_count [line] = 1 ∧
        fetch_fm_stations [line] = [] ∧ fetch_am_stations [line] = []) := by
  refine ⟨by decide, by decide, fun line h => ?_, fun line h => ?_, fun line h => ?_⟩
  · exact parse_fm_fields_none_of_short h
  · exact parse_am_fields_none_of_short h
  · have hfm : parse_fm_line line = none :=
      parse_fm_fields_none_of_short (by simpa using h)
    have ham : parse_am_line line = none :=
      parse_am_fields_none_of_short (by simpa using h)
    refine ⟨?_, ?_, ?_, ?_⟩ <;>
      simp [fm_failure_count, am_failure_count, fetch_fm_stations, fetch_am_stations,
        hfm, ham]

/-- Witness for C6 at the concrete two-field line `a|b`. -/
theorem C6_witness :
    parse_fm_line "a|b" = none ∧ parse_am_line "a|b" = none ∧
    fm_failure_count ["a|b"] = 1 := by
  refine ⟨C6_thm.2.2.1 "a|b" (by decide), C6_thm.2.2.2.1 "a|b" (by decide),
    (C6_thm.2.2.2.2 "a|b" (by decide)).1⟩

lemma mk_state_len {cs : String} {f : ℚ} {st ci sta : String}
    {la lo pw : Option ℚ} {li fid stt : Option String} {r : RadioStation}
    (h : mkRadioStation cs f st ci sta la lo pw li fid stt = some r) :
    (pystrip sta).length ≤ 2 :=
  (mkRadioStation_some h).2.2.2.2.2.2.2.2.2.2.2.2.2

lemma mk_freq_facts {cs : String} {f : ℚ} {st ci sta : String}
    {la lo pw : Option ℚ} {li fid stt : Option String} {r : RadioStation}
    (h : mkRadioStation cs f st ci sta la lo pw li fid stt = some r) :
    r.frequency = f ∧ 53/100 ≤ f ∧ f ≤ 1079/10 :=
  ⟨(mkRadioStation_some h).2.1, (mkRadioStation_some h).2.2.2.2.2.2.2.2.2.2.2.1,
   (mkRadioStation_some h).2.2.2.2.2.2.2.2.2.2.2.2.1⟩

lemma mk_coords {cs : String} {f : ℚ} {st ci sta : String}
    {la lo pw : Option ℚ} {li fid stt : Option String} {r : RadioStation}
    (h : mkRadioStation cs f st ci sta la lo pw li fid stt = some r) :
    r.latitude = la ∧ r.longitude = lo :=
  ⟨(mkRadioStation_some h).2.2.2.2.2.1, (mkRadioStation_some h).2.2.2.2.2.2.1⟩

lemma mk_power {cs : String} {f : ℚ} {st ci sta : String}
    {la lo pw : Option ℚ} {li fid stt : Option String} {r : RadioStation}
    (h : mkRadioStation cs f st ci sta la lo pw li fid stt = some r) :
    r.power_watts = pw :=
  (mkRadioStation_some h).2.2.2.2.2.2.2.1

lemma mk_optional_strings {cs : String} {f : ℚ} {st ci sta : String}
    {la lo pw : Option ℚ} {li fid stt : Option String} {r : RadioStation}
    (h : mkRadioStation cs f st ci sta la lo pw li fid stt = some r) :
    r.licensee = li.map pystrip ∧ r.facility_id = fid.map pystrip ∧
    r.status = stt.map pystrip :=
  ⟨(mkRadioStation_some h).2.2.2.2.2.2.2.2.1, (mkRadioStation_some h).2.2.2.2.2.2.2.2.2.1,
   (mkRadioStation_some h).2.2.2.2.2.2.2.2.2.2.1⟩

lemma parse_fm_fields_none_of_freq {fields : List String}
    (h : parse_frequency (get_field fields FM_FIELDS "frequency") = none) :
    parse_fm_fields fields = none := by
  unfold parse_fm_fields
  by_cases hs : fields.length < maxValues FM_FIELDS
  · rw [if_pos hs]
  · rw [if_neg hs]
    by_cases hc : get_field fields FM_FIELDS "call_sign" = ""
    · rw [if_pos hc]
    · rw [if_neg hc, h]

lemma parse_am_fields_none_of_freq {fields : List String}
    (h : parse_frequency (get_field fields AM_FIELDS "frequency") = none) :
    parse_am_fields fields = none := by
  unfold parse_am_fields
  by_cases hs : fields.length < maxValues AM_FIELDS
  · rw [if_pos hs]
  · rw [if_neg hs]
    by_cases hc : get_field fields AM_FIELDS "call_sign" = ""
    · rw [if_pos hc]
    · rw [if_neg hc, h]

/-! ## Claim C8: empty call sign rejected, the placeholder dash accepted -/

/-- Claim C8: a line whose call-sign column is empty after stripping yields no
record in either variant, while the literal `-` is accepted and produces a
record whose call sign is `-`. -/
theorem C8_thm :
    (∀ line : String, get_field (splitPipe line) FM_FIELDS "call_sign" = "" →
        parse_fm_line line = none) ∧
    (∀ line : String, get_field (splitPipe line) AM_FIELDS "call_sign" = "" →
        parse_am_line line = none) ∧
    (parse_fm_line c8line).map RadioStation.call_sign = some "-" := by
  refine ⟨fun line h => parse_fm_fields_none_of_call h,
    fun line h => parse_am_fields_none_of_call h, ?_⟩
  with_unfolding_all decide

/-- Witness for C8 at the concrete line whose call-sign column is whitespace. -/
theorem C8_witness : parse_fm_line c8badline = none :=
  C8_thm.1 c8badline (by with_unfolding_all decide)

/-! ## Claim C9: overlong state fails only its own line -/

/-- Claim C9: a line whose extracted state is longer than 2 characters after
stripping builds no record (the model folds the `ValidationError` raised at
entity construction, caught by the driver, into the `none` outcome), and such
a failing line is simply dropped from the batch: the records of the lines
before and after it are unaffected. -/
theorem C9_thm :
    (∀ line : String,
        2 < (pystrip (get_field (splitPipe line) FM_FIELDS "state")).length →
        parse_fm_line line = none) ∧
    (∀ line : String,
        2 < (pystrip (get_field (splitPipe line) AM_FIELDS "state")).length →
        parse_am_line line = none) ∧
    (∀ (pre post : List String) (line : String), parse_fm_line line = none →
        fetch_fm_stations (pre ++ line :: post)
          = fetch_fm_stations pre ++ fetch_fm_stations post) ∧
    (∀ (pre post : List String) (line : String), parse_am_line line = none →
        fetch_am_stations (pre ++ line :: post)
          = fetch_am_stations pre ++ fetch_am_stations post) := by
  refine ⟨fun line h => ?_, fun line h => ?_,
    fun pre post line h => ?_, fun pre post line h => ?_⟩
  · cases hp : parse_fm_line line with
    | none => rfl
    | some r =>
      obtain ⟨v, _, _, hmk⟩ := parse_fm_fields_some hp
      exact absurd (mk_state_len hmk) (by omega)
  · cases hp : parse_am_line line with
    | none => rfl
    | some r =>
      obtain ⟨v, _, _, hmk⟩ := parse_am_fields_some hp
      exact absurd (mk_state_len hmk) (by omega)
  · simp [fetch_fm_stations, List.filterMap_append, List.filterMap_cons, h]
  · simp [fetch_am_stations, List.filterMap_append, List.filterMap_cons, h]

/-- Witness for C9 at the concrete line with state `CAL`, embedded in a batch
whose neighbouring lines keep parsing. -/
theorem C9_witness :
    parse_fm_line c9line = none ∧
    fetch_fm_stations ([line0] ++ c9line :: [line0])
      = fetch_fm_stations [line0] ++ fetch_fm_stations [line0] := by
  have h := C9_thm.1 c9line (by with_unfolding_all decide)
  exact ⟨h, C9_thm.2.2.1 [line0] [line0] c9line h⟩

/-! ## Claim C5: power parsing -/

/-- Claim C5: an empty power column or the `-` placeholder yields an absent
power value without failing the line (the built record simply carries no
power), any column whose first numeric token is t yields t * 1000 watts, and
in particular `2.5   kW` yields exactly 2500 watts. -/
theorem C5_thm :
    parse_power "" = none ∧ parse_power "-" = none ∧
    (∀ (s : String) (t : ℚ), ¬(s = "" ∨ s = "-") → extract_number s = some t →
        parse_power s = some (t * 1000)) ∧
    parse_power "2.5   kW" = some 2500 ∧
    (∀ (line : String) (r : RadioStation), parse_fm_line line = some r →
        r.power_watts = parse_power (get_field (splitPipe line) FM_FIELDS "power")) ∧
    (∀ (line : String) (r : RadioStation), parse_am_line line = some r →
        r.power_watts = parse_power (get_field (splitPipe line) AM_FIELDS "power")) ∧
    (parse_fm_line c5line).map RadioStation.power_watts = some none := by
  refine ⟨rfl, rfl, fun s t h hx => ?_, ?_, fun line r hp => ?_, fun line r hp => ?_, ?_⟩
  · unfold parse_power
    rw [if_neg h, hx]
  · have hx : extract_number "2.5   kW" = some (5/2) := by with_unfolding_all decide
    unfold parse_power
    rw [if_neg (by decide), hx]
    norm_num
  · obtain ⟨v, _, _, hmk⟩ := parse_fm_fields_some hp
    exact mk_power hmk
  · obtain ⟨v, _, _, hmk⟩ := parse_am_fields_some hp
    exact mk_power hmk
  · with_unfolding_all decide

/-- Witness for C5: the general token rule applied at the concrete text
`2.5   kW`, and the record-level pass-through applied at the concrete `line0`. -/
theorem C5_witness :
    parse_power "2.5   kW" = some (5/2 * 1000) ∧
    rec0.power_watts = parse_power (get_field (splitPipe line0) FM_FIELDS "power") := by
  refine ⟨C5_thm.2.2.1 "2.5   kW" (5/2) (by decide) (by with_unfolding_all decide), ?_⟩
  exact C5_thm.2.2.2.2.1 line0 rec0 (by with_unfolding_all decide)

/-! ## Claim C1: frequency extraction, normalization, and range gate -/

/-- Claim C1: the frequency parser takes the first integer-or-decimal numeric
token of the column text and divides it by 1000 exactly when the text carries
the `kHz` marker or the token value is below 30; a built record carries
exactly that normalized value; and a line builds no record when the column has
no numeric token or the normalized value lies outside [0.53, 107.9] MHz. -/
theorem C1_thm :
    (∀ s : String, parse_frequency s = (extract_number s).map (fun t => normalize_freq s t)) ∧
    (∀ (line : String) (r : RadioStation), parse_fm_line line = some r →
        ∃ t : ℚ, extract_number (get_field (splitPipe line) FM_FIELDS "frequency") = some t ∧
          r.frequency = normalize_freq (get_field (splitPipe line) FM_FIELDS "frequency") t) ∧
    (∀ line : String,
        extract_number (get_field (splitPipe line) FM_FIELDS "frequency") = none →
        parse_fm_line line = none) ∧
    (∀ (line : String) (t : ℚ),
        extract_number (get_field (splitPipe line) FM_FIELDS "frequency") = some t →
        ¬(53/100 ≤ normalize_freq (get_field (splitPipe line) FM_FIELDS "frequency") t ∧
          normalize_freq (get_field (splitPipe line) FM_FIELDS "frequency") t ≤ 1079/10) →
        parse_fm_line line = none) ∧
    (∀ (line : String) (r : RadioStation), parse_am_line line = some r →
        ∃ t : ℚ, extract_number (get_field (splitPipe line) AM_FIELDS "frequency") = some t ∧
          r.frequency = normalize_freq (get_field (splitPipe line) AM_FIELDS "frequency") t) ∧
    (∀ line : String,
        extract_number (get_field (splitPipe line) AM_FIELDS "frequency") = none →
        parse_am_line line = none) ∧
    (∀ (line : String) (t : ℚ),
        extract_number (get_field (splitPipe line) AM_FIELDS "frequency") = some t →
        ¬(53/100 ≤ normalize_freq (get_field (splitPipe line) AM_FIELDS "frequency") t ∧
          normalize_freq (get_field (splitPipe line) AM_FIELDS "frequency") t ≤ 1079/10) →
        parse_am_line line = none) := by
  refine ⟨parse_frequency_eq, fun line r hp => ?_, fun line h => ?_, fun line t ht hrange => ?_,
    fun line r hp => ?_, fun line h => ?_, fun line t ht hrange => ?_⟩
  · obtain ⟨v, hv, _, hmk⟩ := parse_fm_fields_some hp
    rw [parse_frequency_eq] at hv
    obtain ⟨t, ht, hnorm⟩ := Option.map_eq_some'.mp hv
    exact ⟨t, ht, by rw [(mk_freq_facts hmk).1, ← hnorm]⟩
  · exact parse_fm_fields_none_of_freq (by rw [parse_frequency_eq, h]; rfl)
  · cases hp : parse_fm_line line with
    | none => rfl
    | some r =>
      exfalso
      obtain ⟨v, hv, _, hmk⟩ := parse_fm_fields_some hp
      rw [parse_frequency_eq] at hv
      obtain ⟨u, hu, hnorm⟩ := Option.map_eq_some'.mp hv
      rw [ht] at hu
      injection hu with hu
      subst hu
      rw [hnorm] at hrange
      exact hrange ⟨(mk_freq_facts hmk).2.1, (mk_freq_facts hmk).2.2⟩
  · obtain ⟨v, hv, _, hmk⟩ := parse_am_fields_some hp
    rw [parse_frequency_eq] at hv
    obtain ⟨t, ht, hnorm⟩ := Option.map_eq_some'.mp hv
    exact ⟨t, ht, by rw [(mk_freq_facts hmk).1, ← hnorm]⟩
  · exact parse_am_fields_none_of_freq (by rw [parse_frequency_eq, h]; rfl)
  · cases hp : parse_am_line line with
    | none => rfl
    | some r =>
      exfalso
      obtain ⟨v, hv, _, hmk⟩ := parse_am_fields_some hp
      rw [parse_frequency_eq] at hv
      obtain ⟨u, hu, hnorm⟩ := Option.map_eq_some'.mp hv
      rw [ht] at hu
      injection hu with hu
      subst hu
      rw [hnorm] at hrange
      exact hrange ⟨(mk_freq_facts hmk).2.1, (mk_freq_facts hmk).2.2⟩

/-- Witness for C1: no numeric token in the frequency column kills the line in
both variants, and a 200 MHz line (outside the plausibility range) is
rejected. -/
theorem C1_witness :
    parse_fm_line noTokenLine = none ∧ parse_am_line noTokenLine = none ∧
    parse_fm_line bigFreqLine = none := by
  refine ⟨C1_thm.2.2.1 noTokenLine (by with_unfolding_all decide),
    C1_thm.2.2.2.2.2.1 noTokenLine (by with_unfolding_all decide),
    C1_thm.2.2.2.1 bigFreqLine 200 (by with_unfolding_all decide)
      (by with_unfolding_all decide)⟩

/-! ## Claim C3: coordinate plausibility filter -/

lemma parse_coordinates_of_candidates_none {fields : List String}
    {fm : List (String × Nat)} (h : coord_candidates fields fm = none) :
    parse_coordinates fields fm = (none, none) := by
  unfold parse_coordinates
  rw [h]

lemma parse_coordinates_eval {fields : List String} {fm : List (String × Nat)}
    {la lo : ℚ} (h : coord_candidates fields fm = some (la, lo)) :
    parse_coordinates fields fm =
      if la < 18 ∨ 72 < la ∨ lo < -180 ∨ -60 < lo then (none, none)
      else (some la, some lo) := by
  unfold parse_coordinates
  rw [h]

lemma parse_coordinates_filtered {fields : List String} {fm : List (String × Nat)}
    {la lo : ℚ} (h : coord_candidates fields fm = some (la, lo))
    (hout : la < 18 ∨ 72 < la ∨ lo < -180 ∨ -60 < lo) :
    parse_coordinates fields fm = (none, none) := by
  rw [parse_coordinates_eval h, if_pos hout]

lemma parse_coordinates_shape (fields : List String) (fm : List (String × Nat)) :
    parse_coordinates fields fm = (none, none) ∨
    ∃ la lo : ℚ, parse_coordinates fields fm = (some la, some lo) := by
  cases h : coord_candidates fields fm with
  | none => exact Or.inl (parse_coordinates_of_candidates_none h)
  | some p =>
    obtain ⟨la, lo⟩ := p
    rw [parse_coordinates_eval h]
    by_cases hc : la < 18 ∨ 72 < la ∨ lo < -180 ∨ -60 < lo
    · rw [if_pos hc]
      exact Or.inl rfl
    · rw [if_neg hc]
      exact Or.inr ⟨la, lo, rfl⟩

/-- Claim C3: a candidate pair whose latitude leaves [18, 72] or whose
longitude leaves [-180, -60] is replaced by an absent pair; the coordinates of
a built record are exactly what the coordinate parser returned, so latitude
and longitude are always both present or both absent, and a line whose
candidates are filtered still builds a record (shown at the concrete
`c3line`, whose candidate latitude is 10). -/
theorem C3_thm :
    (∀ (fields : List String) (fm : List (String × Nat)) (la lo : ℚ),
        coord_candidates fields fm = some (la, lo) →
        (la < 18 ∨ 72 < la ∨ lo < -180 ∨ -60 < lo) →
        parse_coordinates fields fm = (none, none)) ∧
    (∀ (fields : List String) (fm : List (String × Nat)),
        parse_coordinates fields fm = (none, none) ∨
        ∃ la lo : ℚ, parse_coordinates fields fm = (some la, some lo)) ∧
    (∀ (line : String) (r : RadioStation), parse_fm_line line = some r →
        (r.latitude, r.longitude) = parse_coordinates (splitPipe line) FM_FIELDS) ∧
    (∀ (line : String) (r : RadioStation), parse_am_line line = some r →
        (r.latitude, r.longitude) = parse_coordinates (splitPipe line) AM_FIELDS) ∧
    (∀ (line : String) (r : RadioStation),
        parse_fm_line line = some r ∨ parse_am_line line = some r →
        (r.latitude = none ↔ r.longitude = none)) ∧
    (parse_fm_line c3line).map RadioStation.latitude = some none ∧
    (parse_fm_line c3line).map RadioStation.longitude = some none := by
  have hfm : ∀ (line : String) (r : RadioStation), parse_fm_line line = some r →
      (r.latitude, r.longitude) = parse_coordinates (splitPipe line) FM_FIELDS := by
    intro line r hp
    obtain ⟨v, _, _, hmk⟩ := parse_fm_fields_some hp
    rw [(mk_coords hmk).1, (mk_coords hmk).2]
  have ham : ∀ (line : String) (r : RadioStation), parse_am_line line = some r →
      (r.latitude, r.longitude) = parse_coordinates (splitPipe line) AM_FIELDS := by
    intro line r hp
    obtain ⟨v, _, _, hmk⟩ := parse_am_fields_some hp
    rw [(mk_coords hmk).1, (mk_coords hmk).2]
  refine ⟨fun fields fm la lo h hout => parse_coordinates_filtered h hout,
    parse_coordinates_shape, hfm, ham, fun line r h => ?_,
    by with_unfolding_all decide, by with_unfolding_all decide⟩
  rcases h with hp | hp
  · have hpair := hfm line r hp
    rcases parse_coordinates_shape (splitPipe line) FM_FIELDS with hs | ⟨la, lo, hs⟩
    · rw [hs] at hpair
      have e1 : r.latitude = none := congrArg Prod.fst hpair
      have e2 : r.longitude = none := congrArg Prod.snd hpair
      simp [e1, e2]
    · rw [hs] at hpair
      have e1 : r.latitude = some la := congrArg Prod.fst hpair
      have e2 : r.longitude = some lo := congrArg Prod.snd hpair
      simp [e1, e2]
  · have hpair := ham line r hp
    rcases parse_coordinates_shape (splitPipe line) AM_FIELDS with hs | ⟨la, lo, hs⟩
    · rw [hs] at hpair
      have e1 : r.latitude = none := congrArg Prod.fst hpair
      have e2 : r.longitude = none := congrArg Prod.snd hpair
      simp [e1, e2]
    · rw [hs] at hpair
      have e1 : r.latitude = some la := congrArg Prod.fst hpair
      have e2 : r.longitude = some lo := congrArg Prod.snd hpair
      simp [e1, e2]

/-- Witness for C3: the filter applied to the concrete `c3fields` (candidate
latitude 10, longitude -74), and the record pass-through at `line0`. -/
theorem C3_witness :
    parse_coordinates c3fields FM_FIELDS = (none, none) ∧
    (rec0.latitude, rec0.longitude) = parse_coordinates (splitPipe line0) FM_FIELDS := by
  refine ⟨C3_thm.1 c3fields FM_FIELDS 10 (-74) (by with_unfolding_all decide)
    (Or.inl (by norm_num)), ?_⟩
  exact C3_thm.2.2.1 line0 rec0 (by with_unfolding_all decide)

/-! ## Claim C7: licensee heuristic scan -/

lemma scan_slots_eq_empty (fields : List String) (l : List Nat)
    (h : ∀ i ∈ l, (pystrip (fields.getD i "")).length ≤ 10) :
    scan_slots fields l = "" := by
  induction l with
  | nil => rfl
  | cons i t ih =>
    unfold scan_slots
    rw [if_neg]
    · exact ih fun j hj => h j (List.mem_cons_of_mem i hj)
    · rintro ⟨-, hlen⟩
      have := h i (List.mem_cons_self i t)
      omega

lemma scan_range_first (fields : List String) :
    ∀ (n s i : Nat), s ≤ i → i < s + n →
      10 < (pystrip (fields.getD i "")).length →
      (∀ j, s ≤ j → j < i → (pystrip (fields.getD j "")).length ≤ 10) →
      scan_slots fields (List.range' s n) = pystrip (fields.getD i "") := by
  intro n
  induction n with
  | zero =>
    intro s i h1 h2 _ _
    omega
  | succ n ih =>
    intro s i h1 h2 hq hmin
    rw [List.range'_succ]
    by_cases hsi : s = i
    · subst hsi
      unfold scan_slots
      rw [if_pos]
      refine ⟨?_, hq⟩
      intro he
      rw [he] at hq
      exact absurd hq (by decide)
    · have hlt : s < i := lt_of_le_of_ne h1 hsi
      unfold scan_slots
      rw [if_neg]
      · exact ih (s + 1) i hlt (by omega) hq (fun j hj1 hj2 => hmin j (by omega) hj2)
      · rintro ⟨-, hlen⟩
        have := hmin s (le_refl s) hlt
        omega

/-- Claim C7: the licensee is the first slot with stripped text longer than 10
characters among slot indices 25 up to but excluding min(35, slot count); when
no slot in that window qualifies, the scan returns the empty string (the
parser's representation of a missing licensee). -/
theorem C7_thm :
    (∀ fields : List String,
        (∀ i, 25 ≤ i → i < min fields.length 35 →
            (pystrip (fields.getD i "")).length ≤ 10) →
        find_licensee_field fields = "") ∧
    (∀ (fields : List String) (i : Nat), 25 ≤ i → i < min fields.length 35 →
        10 < (pystrip (fields.getD i "")).length →
        (∀ j, 25 ≤ j → j < i → (pystrip (fields.getD j "")).length ≤ 10) →
        find_licensee_field fields = pystrip (fields.getD i "")) := by
  constructor
  · intro fields h
    unfold find_licensee_field
    apply scan_slots_eq_empty
    intro j hj
    have hm := List.mem_range'_1.mp hj
    exact h j hm.1 (by omega)
  · intro fields i h1 h2 hq hmin
    unfold find_licensee_field
    exact scan_range_first fields (min fields.length 35 - 25) 25 i h1 (by omega) hq
      (fun j hj1 hj2 => hmin j hj1 hj2)

/-- Witness for C7 at `fields0`: slot 27 is the first (and only) slot of the
window whose stripped text exceeds 10 characters. -/
theorem C7_witness :
    find_licensee_field fields0 = pystrip (fields0.getD 27 "") ∧
    find_licensee_field c10fields = "" := by
  constructor
  · refine C7_thm.2 fields0 27 (by decide) (by decide) (by decide) ?_
    intro j h1 h2
    have : j = 25 ∨ j = 26 := by omega
    rcases this with rfl | rfl <;> decide
  · refine C7_thm.1 c10fields ?_
    intro i h1 h2
    have hl : min c10fields.length 35 = 28 := by decide
    rw [hl] at h2
    have : i = 25 ∨ i = 26 ∨ i = 27 := by omega
    rcases this with rfl | rfl | rfl <;> decide

/-! ## Claim C10: the optional text fields of a built record are never absent -/

/-- Claim C10: every built record carries present (possibly empty) licensee,
facility-id and status values; in particular, when no slot of the licensee
scan window qualifies, the record carries the empty string as licensee rather
than a missing value. -/
theorem C10_thm :
    (∀ (line : String) (r : RadioStation), parse_fm_line line = some r →
        (r.licensee ≠ none ∧ r.facility_id ≠ none ∧ r.status ≠ none) ∧
        ((∀ i, 25 ≤ i → i < min (splitPipe line).length 35 →
            (pystrip ((splitPipe line).getD i "")).length ≤ 10) →
          r.licensee = some "")) ∧
    (∀ (line : String) (r : RadioStation), parse_am_line line = some r →
        (r.licensee ≠ none ∧ r.facility_id ≠ none ∧ r.status ≠ none) ∧
        ((∀ i, 25 ≤ i → i < min (splitPipe line).length 35 →
            (pystrip ((splitPipe line).getD i "")).length ≤ 10) →
          r.licensee = some "")) := by
  constructor
  · intro line r hp
    obtain ⟨v, _, _, hmk⟩ := parse_fm_fields_some hp
    obtain ⟨hlic, hfac, hstat⟩ := mk_optional_strings hmk
    refine ⟨⟨by simp [hlic], by simp [hfac], by simp [hstat]⟩, fun hwin => ?_⟩
    have hf : find_licensee_field (splitPipe line) = "" := by
      unfold find_licensee_field
      apply scan_slots_eq_empty
      intro j hj
      have hm := List.mem_range'_1.mp hj
      exact hwin j hm.1 (by omega)
    rw [hlic, hf]
    decide
  · intro line r hp
    obtain ⟨v, _, _, hmk⟩ := parse_am_fields_some hp
    obtain ⟨hlic, hfac, hstat⟩ := mk_optional_strings hmk
    refine ⟨⟨by simp [hlic], by simp [hfac], by simp [hstat]⟩, fun hwin => ?_⟩
    have hf : find_licensee_field (splitPipe line) = "" := by
      unfold find_licensee_field
      apply scan_slots_eq_empty
      intro j hj
      have hm := List.mem_range'_1.mp hj
      exact hwin j hm.1 (by omega)
    rw [hlic, hf]
    decide

/-- Witness for C10 at the concrete `c10line`, whose scan window holds no slot
longer than 10 characters: the built record carries `some ""` as licensee and
present facility-id and status. -/
theorem C10_witness :
    parse_fm_line c10line = some c10rec ∧ c10rec.licensee = some "" ∧
    c10rec.facility_id ≠ none ∧ c10rec.status ≠ none := by
  have hp : parse_fm_line c10line = some c10rec := by with_unfolding_all decide
  have h := C10_thm.1 c10line c10rec hp
  refine ⟨hp, h.2 ?_, h.1.2.1, h.1.2.2⟩
  intro i h1 h2
  have hl : min (splitPipe c10line).length 35 = 28 := by decide
  rw [hl] at h2
  have : i = 25 ∨ i = 26 ∨ i = 27 := by omega
  rcases this with rfl | rfl | rfl <;> decide

/-! ## Claim C2: sexagesimal conversion (corrected) -/

lemma claim_sub_int_of_some {s : String} {q : ℚ} (h : subfield_int s = some q) :
    claim_sub_int s = q := by
  unfold subfield_int at h
  unfold claim_sub_int
  by_cases hs : s = ""
  · subst hs
    rw [if_pos rfl] at h
    injection h with h
  · rw [if_neg hs] at h
    cases hp : pyInt s with
    | none =>
      rw [hp] at h
      exact absurd h (by simp)
    | some z =>
      rw [hp] at h
      injection h with h

lemma claim_sub_float_of_some {s : String} {q : ℚ} (h : subfield_float s = some q) :
    claim_sub_float s = q := by
  unfold subfield_float at h
  unfold claim_sub_float
  by_cases hs : s = ""
  · subst hs
    rw [if_pos rfl] at h
    injection h with h
  · rw [if_neg hs] at h
    rw [h]

lemma coord_candidates_of_subfields {fields : List String} {fm : List (String × Nat)}
    {latd latm lats lond lonm lons : ℚ}
    (h1 : subfield_int (get_field fields fm "lat_degrees") = some latd)
    (h2 : subfield_int (get_field fields fm "lat_minutes") = some latm)
    (h3 : subfield_float (get_field fields fm "lat_seconds") = some lats)
    (h4 : subfield_int (get_field fields fm "lon_degrees") = some lond)
    (h5 : subfield_int (get_field fields fm "lon_minutes") = some lonm)
    (h6 : subfield_float (get_field fields fm "lon_seconds") = some lons) :
    coord_candidates fields fm
      = some (latd + latm / 60 + lats / 3600, -(lond + lonm / 60 + lons / 3600)) := by
  unfold coord_candidates
  rw [h1, h2, h3, h4, h5, h6]

lemma coord_candidates_none_of_sub {fields : List String} {fm : List (String × Nat)}
    (h : subfield_int (get_field fields fm "lat_degrees") = none ∨
         subfield_int (get_field fields fm "lat_minutes") = none ∨
         subfield_float (get_field fields fm "lat_seconds") = none ∨
         subfield_int (get_field fields fm "lon_degrees") = none ∨
         subfield_int (get_field fields fm "lon_minutes") = none ∨
         subfield_float (get_field fields fm "lon_seconds") = none) :
    coord_candidates fields fm = none := by
  unfold coord_candidates
  cases h1 : subfield_int (get_field fields fm "lat_degrees") <;>
  cases h2 : subfield_int (get_field fields fm "lat_minutes") <;>
  cases h3 : subfield_float (get_field fields fm "lat_seconds") <;>
  cases h4 : subfield_int (get_field fields fm "lon_degrees") <;>
  cases h5 : subfield_int (get_field fields fm "lon_minutes") <;>
  cases h6 : subfield_float (get_field fields fm "lon_seconds") <;>
    simp_all

/-- Counterexample to claim C2 as stated: on the concrete `c2fields` (latitude
subfields `40`, `x`, `0`; longitude subfields `74`, `0`, `0`) the claim's
default-unparsable-to-zero reading yields the candidate pair (40, -74), which
lies inside the plausibility bounds and would populate both coordinates; the
code instead aborts the whole pair on the unparsable `x` (the `ValueError`
path of `_parse_coordinates`) and the built record carries no coordinates at
all. -/
theorem C2_counterexample :
    claim_candidates c2fields FM_FIELDS = (40, -74) ∧
    ¬((40 : ℚ) < 18 ∨ 72 < (40 : ℚ) ∨ (-74 : ℚ) < -180 ∨ -60 < (-74 : ℚ)) ∧
    parse_coordinates c2fields FM_FIELDS = (none, none) ∧
    (parse_fm_line c2line).map RadioStation.latitude = some none ∧
    (parse_fm_line c2line).map RadioStation.longitude = some none := by
  refine ⟨by with_unfolding_all decide, by norm_num, by with_unfolding_all decide,
    by with_unfolding_all decide, by with_unfolding_all decide⟩

/-- Claim C2 as amended: an absent (empty) coordinate subfield defaults to
zero and the candidates are degrees + minutes/60 + seconds/3600, the
longitude negated as West regardless of the direction columns; but when any
non-empty subfield fails to parse as a number, no candidate is computed and
both coordinates are absent.  In particular latitude subfields (40, 30, 0)
give exactly 40.5 and longitude subfields (74, 0, 0) give exactly -74. -/
theorem C2_thm :
    (∀ (fields : List String) (fm : List (String × Nat))
        (latd latm lats lond lonm lons : ℚ),
        subfield_int (get_field fields fm "lat_degrees") = some latd →
        subfield_int (get_field fields fm "lat_minutes") = some latm →
        subfield_float (get_field fields fm "lat_seconds") = some lats →
        subfield_int (get_field fields fm "lon_degrees") = some lond →
        subfield_int (get_field fields fm "lon_minutes") = some lonm →
        subfield_float (get_field fields fm "lon_seconds") = some lons →
        coord_candidates fields fm = some (claim_candidates fields fm) ∧
        claim_candidates fields fm
          = (latd + latm / 60 + lats / 3600, -(lond + lonm / 60 + lons / 3600))) ∧
    (∀ (fields : List String) (fm : List (String × Nat)),
        (subfield_int (get_field fields fm "lat_degrees") = none ∨
         subfield_int (get_field fields fm "lat_minutes") = none ∨
         subfield_float (get_field fields fm "lat_seconds") = none ∨
         subfield_int (get_field fields fm "lon_degrees") = none ∨
         subfield_int (get_field fields fm "lon_minutes") = none ∨
         subfield_float (get_field fields fm "lon_seconds") = none) →
        coord_candidates fields fm = none ∧ parse_coordinates fields fm = (none, none)) ∧
    (∀ s : String, subfield_int s = none ↔ (s ≠ "" ∧ pyInt s = none)) ∧
    (∀ s : String, subfield_float s = none ↔ (s ≠ "" ∧ pyFloat s = none)) ∧
    claim_candidates fields0 FM_FIELDS = (81/2, -74) ∧
    parse_coordinates fields0 FM_FIELDS = (some (81/2), some (-74)) := by
  refine ⟨fun fields fm latd latm lats lond lonm lons h1 h2 h3 h4 h5 h6 => ?_,
    fun fields fm h => ?_, fun s => ?_, fun s => ?_,
    by with_unfolding_all decide, by with_unfolding_all decide⟩
  · have hclaim : claim_candidates fields fm
        = (latd + latm / 60 + lats / 3600, -(lond + lonm / 60 + lons / 3600)) := by
      unfold claim_candidates
      rw [claim_sub_int_of_some h1, claim_sub_int_of_some h2,
        claim_sub_float_of_some h3, claim_sub_int_of_some h4,
        claim_sub_int_of_some h5, claim_sub_float_of_some h6]
    exact ⟨by rw [hclaim]; exact coord_candidates_of_subfields h1 h2 h3 h4 h5 h6, hclaim⟩
  · have hc := coord_candidates_none_of_sub h
    exact ⟨hc, parse_coordinates_of_candidates_none hc⟩
  · unfold subfield_int
    by_cases hs : s = ""
    · simp [hs]
    · cases hp : pyInt s <;> simp [hs, hp]
  · unfold subfield_float
    by_cases hs : s = ""
    · simp [hs]
    · cases hp : pyFloat s <;> simp [hs, hp]

/-- Witness for C2 (amended): all subfields of `fields0` parse, so the code's
candidates agree with the claim's formula there, and the unparsable minutes
text of `c2fields` aborts the pair. -/
theorem C2_witness :
    coord_candidates fields0 FM_FIELDS = some (claim_candidates fields0 FM_FIELDS) ∧
    coord_candidates c2fields FM_FIELDS = none := by
  refine ⟨(C2_thm.1 fields0 FM_FIELDS 40 30 0 74 0 0
      (by with_unfolding_all decide) (by with_unfolding_all decide)
      (by with_unfolding_all decide) (by with_unfolding_all decide)
      (by with_unfolding_all decide) (by with_unfolding_all decide)).1,
    (C2_thm.2.1 c2fields FM_FIELDS (Or.inr (Or.inl (by with_unfolding_all decide)))).1⟩

end FCC
